import Mathlib

/-!
Shallow embedding of the ESP32 pool-heating controller (`src/src/main.cpp`)
and proofs about its valve state machine, manual-override window, heater
effectiveness test, and pump-runtime tally.

Machine integers: `millis()` returns a 32-bit `unsigned long` on this target;
all elapsed-time computations (`millis() - start`) are modelled by `wsub`,
wraparound subtraction modulo 2^32 on `Nat`.  Temperatures (`float` in the
source) are modelled as rationals.  Strings keep their source values.
-/

set_option autoImplicit false

namespace PoolCtrl

/-- 2^32, the modulus of `unsigned long` arithmetic on the target. -/
def U32 : Nat := 2 ^ 32

/-- Wraparound 32-bit subtraction: the value of `a - b` computed on
`unsigned long`, for timestamps stored modulo 2^32. -/
def wsub (a b : Nat) : Nat := (a % U32 + (U32 - b % U32)) % U32

/-! ## Valve drive pins, write-level model

`OpenValve`, `CloseValve` and `StopValveMotion` are the only writers of the
two gate pins (`OPEN_GATE_PIN`, `CLOSE_GATE_PIN`).  Each is a sequence of
individual `digitalWrite` calls; the write-level model keeps every
intermediate pin state observable. -/

/-- The two valve drive output pins. -/
inductive Pin
  | openGate
  | closeGate
  deriving DecidableEq

/-- The levels of the two valve drive output pins (`true` = HIGH). -/
structure Pins where
  openGate : Bool
  closeGate : Bool
  deriving DecidableEq

/-- `digitalWrite(pin, v)` on the pin state. -/
def digitalWrite (p : Pin) (v : Bool) (ps : Pins) : Pins :=
  match p with
  | .openGate => { ps with openGate := v }
  | .closeGate => { ps with closeGate := v }

/-- The three valve commands of the source. -/
inductive ValveCmd
  | openV
  | closeV
  | stopV
  deriving DecidableEq

/-- The `digitalWrite` sequence each valve command performs, in source order:
`OpenValve` writes CLOSE low then OPEN high; `CloseValve` writes OPEN low then
CLOSE high; `StopValveMotion` writes both low. -/
def cmdWrites : ValveCmd → List (Pin × Bool)
  | .openV => [(.closeGate, false), (.openGate, true)]
  | .closeV => [(.openGate, false), (.closeGate, true)]
  | .stopV => [(.openGate, false), (.closeGate, false)]

/-- Apply one pin write. -/
def applyWrite (ps : Pins) (w : Pin × Bool) : Pins := digitalWrite w.1 w.2 ps

/-- The pin state after a whole command. -/
def applyCmd (ps : Pins) (c : ValveCmd) : Pins := (cmdWrites c).foldl applyWrite ps

/-- The pin states observable after each individual write of one command. -/
def cmdStates (ps : Pins) (c : ValveCmd) : List Pins :=
  (((cmdWrites c).scanl applyWrite ps).tail)

/-- All pin states observable after each individual write along a command
sequence (the starting state excluded). -/
def afterStates (ps : Pins) : List ValveCmd → List Pins
  | [] => []
  | c :: cs => cmdStates ps c ++ afterStates (applyCmd ps c) cs

/-- Mutual exclusion of the two drive signals: never both HIGH. -/
def PinsMutex (ps : Pins) : Prop := ¬(ps.openGate = true ∧ ps.closeGate = true)

/-! ## Controller state -/

/-- Valve motion state (`enum ValveMotion`). -/
inductive ValveMotion
  | IDLE
  | OPENING_MOTION
  | CLOSING_MOTION
  deriving DecidableEq

/-- The mutable globals of `main.cpp` that the control logic reads and
writes ticks-by-tick.  Pin levels are carried alongside so that valve
commands update both the motion state and the physical outputs. -/
structure CtrlState where
  openGate : Bool
  closeGate : Bool
  valveMotion : ValveMotion
  valveMotionStart : Nat
  isValveOpen : Bool
  solarStatus : String
  manualOverrideStart : Nat
  manualOverrideActive : Bool
  heaterTestActive : Bool
  heaterTestStart : Nat
  heaterTestResultPool : ℚ
  heaterTestResultSolar : ℚ
  pumpStatus : String
  pumpRunTimeToday : Nat
  lastPumpStateChange : Nat
  previousPumpState : Bool
  lastTest : Nat
  buttonPreviouslyPressed : Bool
  deriving DecidableEq

/-- Externally visible events a control function emits while it runs:
blocking delays, housekeeping (`ArduinoOTA.handle()`) calls, and outbound
pump commands (`CallPump`). -/
inductive Ev
  | delayMs : Nat → Ev
  | otaHandle : Ev
  | pumpCmd : String → Ev
  deriving DecidableEq

/-- `OpenValve()` (source lines 169-175): CLOSE pin low, OPEN pin high,
record the motion start, motion becomes `OPENING_MOTION`. -/
def OpenValve (now : Nat) (s : CtrlState) : CtrlState :=
  { s with closeGate := false, openGate := true,
           valveMotionStart := now, valveMotion := .OPENING_MOTION }

/-- `CloseValve()` (source lines 177-183): OPEN pin low, CLOSE pin high,
record the motion start, motion becomes `CLOSING_MOTION`. -/
def CloseValve (now : Nat) (s : CtrlState) : CtrlState :=
  { s with openGate := false, closeGate := true,
           valveMotionStart := now, valveMotion := .CLOSING_MOTION }

/-- `StopValveMotion()` (source lines 185-190): both pins low, motion
becomes `IDLE`. -/
def StopValveMotion (s : CtrlState) : CtrlState :=
  { s with openGate := false, closeGate := false, valveMotion := .IDLE }

/-! ## Heater test -/

/-- `initiateHeaterTest()` (source lines 193-205), entered at millis = `t`:
`CallPump("on")`, `delay(1000)`, `OpenValve()` (at `t + 1000`), mark valve
open and heating ON, `delay(15000)`, `StopValveMotion()`, record
`heaterTestStart` (at `t + 16000`) and set the session active. -/
def initiateHeaterTest (t : Nat) (s : CtrlState) : CtrlState :=
  let s1 := OpenValve (t + 1000) s
  let s2 := { s1 with isValveOpen := true, solarStatus := "ON" }
  let s3 := StopValveMotion s2
  { s3 with heaterTestStart := t + 16000, heaterTestActive := true }

/-- The event trace of `initiateHeaterTest()`: a pump command and two plain
`delay` calls; no housekeeping is interleaved in any of its waits. -/
def initiateEvents : List Ev := [.pumpCmd "on", .delayMs 1000, .delayMs 15000]

/-- `finishHeaterTest()` (source lines 208-239), entered at millis = `t`,
with `pool`/`solar` the two probe readings sampled after the `delay(100)`:
store the results; if `solar > pool + 0.5` keep the valve open, heating ON
and command the pump on; otherwise `CloseValve()`, `delay(15000)`,
`StopValveMotion()`, mark valve closed, heating OFF and command the pump
off.  Either way the session ends.  Returns the new state and the event
trace. -/
def finishHeaterTest (t : Nat) (pool solar : ℚ) (s : CtrlState) :
    CtrlState × List Ev :=
  let s1 := { s with heaterTestResultPool := pool, heaterTestResultSolar := solar }
  if s1.heaterTestResultSolar > s1.heaterTestResultPool + 1/2 then
    ({ s1 with isValveOpen := true, solarStatus := "ON", heaterTestActive := false },
     [.delayMs 100, .pumpCmd "on"])
  else
    let s2 := StopValveMotion (CloseValve (t + 100) s1)
    ({ s2 with isValveOpen := false, solarStatus := "OFF", heaterTestActive := false },
     [.delayMs 100, .delayMs 15000, .pumpCmd "off"])

/-! ## Pump status query and poll step -/

/-- Prefix test on character lists (Arduino `String::startsWith`). -/
def isPre : List Char → List Char → Bool
  | [], _ => true
  | _ :: _, [] => false
  | a :: as, b :: bs => a == b && isPre as bs

/-- Index of the first occurrence of `needle` (Arduino `String::indexOf`;
`none` models the `-1` not-found result). -/
def findSub (needle : List Char) : List Char → Option Nat
  | [] => if needle.isEmpty then some 0 else none
  | c :: rest =>
      if isPre needle (c :: rest) then some 0
      else (findSub needle rest).map (· + 1)

/-- The search key `"output":` used by `IsPumpOn` (9 characters). -/
def outputKey : List Char := ['"', 'o', 'u', 't', 'p', 'u', 't', '"', ':']

/-- Whitespace as classified by `isspace`, used by Arduino `String::trim`. -/
def isSpaceChar (c : Char) : Bool :=
  c == ' ' || c == '\t' || c == '\n' || c == '\x0b' || c == '\x0c' || c == '\r'

/-- Arduino `String::trim`: strip leading and trailing whitespace. -/
def trimChars (l : List Char) : List Char :=
  ((l.dropWhile isSpaceChar).reverse.dropWhile isSpaceChar).reverse

/-- `stateStr.startsWith("true")` from `IsPumpOn`. -/
def startsWithTrue : List Char → Bool
  | 't' :: 'r' :: 'u' :: 'e' :: _ => true
  | _ => false

/-- `IsPumpOn()` (source lines 112-137): WiFi down → `false`; HTTP error
(`httpCode ≤ 0`) → `false`; body without `"output":` → `false`; otherwise
the 9-character key is skipped, the remainder trimmed, and the result is
whether it starts with `true`. -/
def IsPumpOn (wifiConnected : Bool) (httpCode : Int) (payload : String) : Bool :=
  if !wifiConnected then false
  else if httpCode > 0 then
    match findSub outputKey payload.toList with
    | some i => startsWithTrue (trimChars (payload.toList.drop (i + 9)))
    | none => false
  else false

/-- The pump-status polling block of `loop()` (source lines 406-427), fired
with `q` the value returned by `IsPumpOn()`: report "ON"/"OFF", accumulate
runtime on an observed ON→OFF transition, record the start time on an
observed OFF→ON transition. -/
def pumpPollStep (nowMillis : Nat) (q : Bool) (s : CtrlState) : CtrlState :=
  let statusStr : String := if q then "ON" else "OFF"
  let currentPumpState : Bool := statusStr == "ON"
  let s1 := { s with pumpStatus := statusStr }
  let s2 :=
    if s1.previousPumpState && !currentPumpState then
      { s1 with pumpRunTimeToday :=
          s1.pumpRunTimeToday + wsub nowMillis s1.lastPumpStateChange }
    else s1
  let s3 :=
    if !s2.previousPumpState && currentPumpState then
      { s2 with lastPumpStateChange := nowMillis }
    else s2
  { s3 with previousPumpState := currentPumpState }

/-! ## Loop steps: button, override expiry, network toggle, heater test -/

/-- The manual-toggle-button block of `loop()` (source lines 334-355):
on a pressed edge with no override active, toggle the valve (close if open,
open if closed, updating `solarStatus` and `isValveOpen` together) and start
the override window; always latch the current button level. -/
def buttonStep (now : Nat) (pressed : Bool) (s : CtrlState) : CtrlState :=
  let s1 :=
    if !s.manualOverrideActive && pressed && !s.buttonPreviouslyPressed then
      let s2 :=
        if s.isValveOpen then
          { CloseValve now s with solarStatus := "OFF", isValveOpen := false }
        else
          { OpenValve now s with solarStatus := "ON", isValveOpen := true }
      { s2 with manualOverrideStart := now, manualOverrideActive := true }
    else s
  { s1 with buttonPreviouslyPressed := pressed }

/-- The override-expiry check of `loop()` (source lines 357-360): if the
override is active and 20000 ms have elapsed, stop the valve motion and
clear the override. -/
def overrideStep (now : Nat) (s : CtrlState) : CtrlState :=
  if s.manualOverrideActive ∧ wsub now s.manualOverrideStart ≥ 20000 then
    { StopValveMotion s with manualOverrideActive := false }
  else s

/-- The `/valve/toggle` HTTP handler (source lines 281-294): toggle the
valve, update `solarStatus` and `isValveOpen` together, start the override
window. -/
def netToggleStep (now : Nat) (s : CtrlState) : CtrlState :=
  let s1 :=
    if s.isValveOpen then
      { CloseValve now s with solarStatus := "OFF", isValveOpen := false }
    else
      { OpenValve now s with solarStatus := "ON", isValveOpen := true }
  { s1 with manualOverrideStart := now, manualOverrideActive := true }

/-- The heater-test eligibility guard of `loop()` (source line 396):
`!heaterTestActive && millis() - lastTest > testInterval && currentHour >= 9
&& currentHour < 16`, with `testInterval = 3600000`. -/
def heaterEligible (t hour : Nat) (s : CtrlState) : Bool :=
  !s.heaterTestActive && decide (wsub t s.lastTest > 3600000) &&
    decide (hour ≥ 9) && decide (hour < 16)

/-- The heater-test start block of `loop()` (source lines 388-399), entered
at millis = `t`: if eligible, run `initiateHeaterTest` and record
`lastTest = millis()` when it returns (16000 ms later). -/
def heaterStartStep (t hour : Nat) (s : CtrlState) : CtrlState :=
  if heaterEligible t hour s then
    { initiateHeaterTest t s with lastTest := t + 16000 }
  else s

/-- The heater-test finish block of `loop()` (source lines 401-403), entered
at millis = `t`: if a session is active and 5 minutes have elapsed since
`heaterTestStart`, run `finishHeaterTest` on the probe readings. -/
def heaterFinishStep (t : Nat) (pool solar : ℚ) (s : CtrlState) : CtrlState :=
  if s.heaterTestActive ∧ wsub t s.heaterTestStart ≥ 300000 then
    (finishHeaterTest t pool solar s).1
  else s

/-! ## Reachability -/

/-- The state-mutating actions of the control loop and its HTTP handler,
each carrying the environment inputs it reads (current millis, button level,
wall-clock hour, probe readings, pump query result). -/
inductive Act
  | button : Nat → Bool → Act
  | overrideT : Nat → Act
  | toggle : Nat → Act
  | heaterStart : Nat → Nat → Act
  | heaterFinish : Nat → ℚ → ℚ → Act
  | pump : Nat → Bool → Act

/-- One action applied to the state. -/
def step : Act → CtrlState → CtrlState
  | .button now p => buttonStep now p
  | .overrideT now => overrideStep now
  | .toggle now => netToggleStep now
  | .heaterStart t h => heaterStartStep t h
  | .heaterFinish t p q => heaterFinishStep t p q
  | .pump now q => pumpPollStep now q

/-- Run a sequence of actions. -/
def run (s : CtrlState) (acts : List Act) : CtrlState :=
  acts.foldl (fun s a => step a s) s

/-- The state right after `setup()` (source lines 241-315): valve stopped
(`StopValveMotion`), valve marked closed, all statuses "OFF", no override,
no test session, tally zero; the boot pump probe seeds `previousPumpState`
and, when the pump is on, `lastPumpStateChange`. -/
def initState (bootMillis : Nat) (bootPumpOn : Bool) : CtrlState :=
  { openGate := false, closeGate := false,
    valveMotion := .IDLE, valveMotionStart := 0,
    isValveOpen := false, solarStatus := "OFF",
    manualOverrideStart := 0, manualOverrideActive := false,
    heaterTestActive := false, heaterTestStart := 0,
    heaterTestResultPool := 0, heaterTestResultSolar := 0,
    pumpStatus := "OFF", pumpRunTimeToday := 0,
    lastPumpStateChange := if bootPumpOn then bootMillis else 0,
    previousPumpState := bootPumpOn,
    lastTest := 0, buttonPreviouslyPressed := false }

/-- A state is reachable when some action sequence produces it from some
boot state. -/
def Reachable (s : CtrlState) : Prop :=
  ∃ bootMillis bootPumpOn acts, s = run (initState bootMillis bootPumpOn) acts

/-- A boot state one second into an active manual-override window (the
window was started at millis = 3999000, the current millis is 4000000). -/
def overrideActiveState : CtrlState :=
  { initState 0 false with
      manualOverrideActive := true, manualOverrideStart := 3999000 }

/-! ## Housekeeping traces of the waits -/

/-- A serviced busy-wait of the source
(`while (millis() - waitStart < ms) { ArduinoOTA.handle(); delay(1); }`):
`ms` iterations of a housekeeping call followed by a 1 ms delay.  Used by
the probe-conversion wait (`ms = 100`) and the per-tick idle wait
(`ms = 10`). -/
def serviceWait (ms : Nat) : List Ev :=
  (List.replicate ms [Ev.otaHandle, Ev.delayMs 1]).flatten

/-- Fold computing the longest stretch of delay time without a housekeeping
call: `(longest gap so far, current gap)`. -/
def gapStep : Nat × Nat → Ev → Nat × Nat
  | (mx, cur), .delayMs n => (max mx (cur + n), cur + n)
  | (mx, _), .otaHandle => (mx, 0)
  | (mx, cur), .pumpCmd _ => (mx, cur)

/-- The longest stretch of delay milliseconds in a trace during which
housekeeping (`ArduinoOTA.handle()`) is never invoked. -/
def maxOtaGap (l : List Ev) : Nat := (l.foldl gapStep (0, 0)).1

/-! ## Helper lemmas -/

theorem cmdStates_mutex (c : ValveCmd) (ps : Pins) :
    ∀ q ∈ cmdStates ps c, PinsMutex q := by
  intro q hq
  cases c <;>
    simp [cmdStates, cmdWrites, List.scanl, applyWrite, digitalWrite] at hq <;>
    rcases hq with rfl | rfl <;> simp [PinsMutex]

theorem applyCmd_mutex (c : ValveCmd) (ps : Pins) : PinsMutex (applyCmd ps c) := by
  cases c <;> simp [applyCmd, cmdWrites, applyWrite, digitalWrite, PinsMutex]

/-- The loop-step invariant: when the motion state is `IDLE` both drive pins
are low, and the reported valve-open flag agrees with the heating status
label. -/
def Inv (s : CtrlState) : Prop :=
  (s.valveMotion = .IDLE → s.openGate = false ∧ s.closeGate = false) ∧
  (s.isValveOpen = true ↔ s.solarStatus = "ON")

theorem inv_initState (b : Nat) (p : Bool) : Inv (initState b p) := by
  constructor <;> simp [initState]

theorem inv_buttonStep (now : Nat) (pressed : Bool) (s : CtrlState) (h : Inv s) :
    Inv (buttonStep now pressed s) := by
  obtain ⟨h1, h2⟩ := h
  unfold buttonStep
  split
  · split <;>
      exact ⟨by simp [CloseValve, OpenValve], by simp [CloseValve, OpenValve]⟩
  · exact ⟨fun hm => h1 hm, h2⟩

theorem inv_overrideStep (now : Nat) (s : CtrlState) (h : Inv s) :
    Inv (overrideStep now s) := by
  obtain ⟨h1, h2⟩ := h
  unfold overrideStep
  split
  · exact ⟨by simp [StopValveMotion], by simpa [StopValveMotion] using h2⟩
  · exact ⟨h1, h2⟩

theorem inv_netToggleStep (now : Nat) (s : CtrlState) (h : Inv s) :
    Inv (netToggleStep now s) := by
  unfold netToggleStep
  split <;>
    exact ⟨by simp [CloseValve, OpenValve], by simp [CloseValve, OpenValve]⟩

theorem inv_heaterStartStep (t hour : Nat) (s : CtrlState) (h : Inv s) :
    Inv (heaterStartStep t hour s) := by
  unfold heaterStartStep
  split
  · exact ⟨by simp [initiateHeaterTest, StopValveMotion, OpenValve],
           by simp [initiateHeaterTest, StopValveMotion, OpenValve]⟩
  · exact h

theorem inv_heaterFinishStep (t : Nat) (pool solar : ℚ) (s : CtrlState)
    (h : Inv s) : Inv (heaterFinishStep t pool solar s) := by
  obtain ⟨h1, h2⟩ := h
  unfold heaterFinishStep finishHeaterTest
  split
  · dsimp only
    split
    · exact ⟨by simpa using h1, by simp⟩
    · exact ⟨by simp [StopValveMotion, CloseValve],
             by simp [StopValveMotion, CloseValve]⟩
  · exact ⟨h1, h2⟩

theorem inv_pumpPollStep (now : Nat) (q : Bool) (s : CtrlState) (h : Inv s) :
    Inv (pumpPollStep now q s) := by
  obtain ⟨h1, h2⟩ := h
  unfold pumpPollStep
  dsimp only
  split_ifs <;> exact ⟨by simpa using h1, by simpa using h2⟩

theorem inv_step (a : Act) (s : CtrlState) (h : Inv s) : Inv (step a s) := by
  cases a with
  | button now p => exact inv_buttonStep now p s h
  | overrideT now => exact inv_overrideStep now s h
  | toggle now => exact inv_netToggleStep now s h
  | heaterStart t hr => exact inv_heaterStartStep t hr s h
  | heaterFinish t p q => exact inv_heaterFinishStep t p q s h
  | pump now q => exact inv_pumpPollStep now q s h

theorem inv_run (acts : List Act) (s : CtrlState) (h : Inv s) : Inv (run s acts) := by
  induction acts generalizing s with
  | nil => exact h
  | cons a as ih => exact ih (step a s) (inv_step a s h)

theorem reachable_inv (s : CtrlState) (h : Reachable s) : Inv s := by
  obtain ⟨b, p, acts, rfl⟩ := h
  exact inv_run acts _ (inv_initState b p)

theorem buttonStep_override (now : Nat) (p : Bool) (s : CtrlState)
    (h : s.manualOverrideActive = true) :
    (buttonStep now p s).manualOverrideActive = true := by
  unfold buttonStep
  dsimp only
  split_ifs <;> simp_all [OpenValve, CloseValve]

theorem netToggleStep_override (now : Nat) (s : CtrlState) :
    (netToggleStep now s).manualOverrideActive = true := by
  unfold netToggleStep
  dsimp only

theorem heaterStartStep_override (t hour : Nat) (s : CtrlState) :
    (heaterStartStep t hour s).manualOverrideActive = s.manualOverrideActive := by
  unfold heaterStartStep initiateHeaterTest
  split_ifs <;> simp [StopValveMotion, OpenValve]

theorem heaterFinishStep_override (t : Nat) (pool solar : ℚ) (s : CtrlState) :
    (heaterFinishStep t pool solar s).manualOverrideActive =
      s.manualOverrideActive := by
  unfold heaterFinishStep finishHeaterTest
  dsimp only
  split_ifs <;> simp [StopValveMotion, CloseValve]

theorem pumpPollStep_override (now : Nat) (q : Bool) (s : CtrlState) :
    (pumpPollStep now q s).manualOverrideActive = s.manualOverrideActive := by
  unfold pumpPollStep
  dsimp only
  split_ifs <;> simp

/-! ## Claim theorems -/

/-- C1: starting from any pin state where the two valve drive outputs are
not both high, every pin state observable after each individual
`digitalWrite` of any sequence of valve commands (open, close, stop, in any
order) still has the two drive signals not both high: each directional
command first forces the opposite signal low before raising its own, and
stop clears both. -/
theorem valve_drive_signals_never_both_high (ps : Pins) (cmds : List ValveCmd)
    (h : PinsMutex ps) : ∀ q ∈ ps :: afterStates ps cmds, PinsMutex q := by
  induction cmds generalizing ps with
  | nil =>
      intro q hq
      simp [afterStates] at hq
      subst hq
      exact h
  | cons c cs ih =>
      intro q hq
      simp [afterStates] at hq
      rcases hq with rfl | hq | hq
      · exact h
      · exact cmdStates_mutex c ps q hq
      · exact ih (applyCmd ps c) (applyCmd_mutex c ps) q (List.mem_cons_of_mem _ hq)

/-- Witness for C1 at a concrete command sequence from the boot pin state. -/
theorem valve_drive_signals_never_both_high_witness :
    PinsMutex { openGate := true, closeGate := false } :=
  valve_drive_signals_never_both_high ⟨false, false⟩
    [.openV, .closeV, .stopV] (by unfold PinsMutex; decide) ⟨true, false⟩
    (by decide)

/-- C9: in every reachable state whose valve motion is already `IDLE`,
`StopValveMotion` is a no-op: both drive signals were already low and stay
low, and the whole state (motion included) is unchanged. -/
theorem stop_is_noop_when_idle (s : CtrlState) (h : Reachable s)
    (hm : s.valveMotion = .IDLE) : StopValveMotion s = s := by
  obtain ⟨ho, hc⟩ := (reachable_inv s h).1 hm
  cases s
  simp_all [StopValveMotion]

/-- Witness for C9 at the boot state. -/
theorem stop_is_noop_when_idle_witness :
    StopValveMotion (initState 0 false) = initState 0 false :=
  stop_is_noop_when_idle (initState 0 false) ⟨0, false, [], rfl⟩ rfl

/-- C10: in every reachable state the reported valve-open flag and the
heating status label agree: `isValveOpen` is true exactly when
`solarStatus = "ON"`. -/
theorem valve_flag_agrees_with_heating_label (s : CtrlState)
    (h : Reachable s) : s.isValveOpen = true ↔ s.solarStatus = "ON" :=
  (reachable_inv s h).2

/-- Witness for C10 at the boot state. -/
theorem valve_flag_agrees_with_heating_label_witness :
    ((initState 0 false).isValveOpen = true ↔
      (initState 0 false).solarStatus = "ON") :=
  valve_flag_agrees_with_heating_label (initState 0 false) ⟨0, false, [], rfl⟩

/-- C6: while the override window is active, a tick with elapsed time below
20000 ms leaves the state (and in particular `manualOverrideActive`)
unchanged; the first tick with elapsed time at least 20000 ms stops the
valve actuator (both drive signals cleared, motion `IDLE`) and clears
`active`; and no other action of the loop ever clears an active override —
it becomes false exactly at an expiry tick and not before. -/
theorem override_window_expires_exactly_at_20000 :
    (∀ now s, s.manualOverrideActive = true →
       wsub now s.manualOverrideStart < 20000 → overrideStep now s = s) ∧
    (∀ now s, s.manualOverrideActive = true →
       wsub now s.manualOverrideStart ≥ 20000 →
       (overrideStep now s).manualOverrideActive = false ∧
       (overrideStep now s).openGate = false ∧
       (overrideStep now s).closeGate = false ∧
       (overrideStep now s).valveMotion = ValveMotion.IDLE) ∧
    (∀ a s, s.manualOverrideActive = true →
       (step a s).manualOverrideActive = false →
       ∃ now, a = Act.overrideT now ∧
         wsub now s.manualOverrideStart ≥ 20000) := by
  refine ⟨?_, ?_, ?_⟩
  · intro now s _ h2
    unfold overrideStep
    rw [if_neg]
    exact fun hc => not_le.mpr h2 hc.2
  · intro now s h1 h2
    unfold overrideStep
    rw [if_pos ⟨by simp [h1], h2⟩]
    simp [StopValveMotion]
  · intro a s h1 h2
    cases a with
    | button now p => exact absurd h2 (by simp [step, buttonStep_override now p s h1])
    | overrideT now =>
        refine ⟨now, rfl, ?_⟩
        have h2' : (overrideStep now s).manualOverrideActive = false := h2
        unfold overrideStep at h2'
        by_cases hc : s.manualOverrideActive = true ∧
            wsub now s.manualOverrideStart ≥ 20000
        · exact hc.2
        · rw [if_neg hc] at h2'
          exact absurd h1 (by simp [h2'])
    | toggle now => exact absurd h2 (by simp [step, netToggleStep_override now s])
    | heaterStart t hr =>
        exact absurd h2 (by simp [step, heaterStartStep_override t hr s, h1])
    | heaterFinish t p q =>
        exact absurd h2 (by simp [step, heaterFinishStep_override t p q s, h1])
    | pump now q =>
        exact absurd h2 (by simp [step, pumpPollStep_override now q s, h1])

/-- Witness for C6: a concrete override started at 0 survives a tick at
19999 ms and is cleared, with the actuator stopped, by a tick at 20000. -/
theorem override_window_expires_exactly_at_20000_witness :
    overrideStep 19999 (netToggleStep 0 (initState 0 false)) =
      netToggleStep 0 (initState 0 false) ∧
    (overrideStep 20000 (netToggleStep 0 (initState 0 false))).manualOverrideActive
      = false :=
  ⟨override_window_expires_exactly_at_20000.1 19999
      (netToggleStep 0 (initState 0 false)) (by decide) (by decide),
   (override_window_expires_exactly_at_20000.2.1 20000
      (netToggleStep 0 (initState 0 false)) (by decide) (by decide)).1⟩

/-- C7: a heater test session starts only when no session is active, more
than one test interval (3600000 ms) has elapsed since `lastTest`, and the
current hour lies in 09:00-16:00; a start step taken while a session is
already active changes nothing, so at most one session is active at a
time. -/
theorem heater_test_start_guard :
    (∀ t hour s, s.heaterTestActive = true → heaterStartStep t hour s = s) ∧
    (∀ t hour s,
       ((heaterStartStep t hour s).heaterTestActive = true ∧
         s.heaterTestActive = false) ↔
       (s.heaterTestActive = false ∧ wsub t s.lastTest > 3600000 ∧
         9 ≤ hour ∧ hour < 16)) := by
  constructor
  · intro t hour s h
    unfold heaterStartStep
    rw [if_neg]
    simp [heaterEligible, h]
  · intro t hour s
    constructor
    · rintro ⟨ha, hb⟩
      refine ⟨hb, ?_⟩
      unfold heaterStartStep at ha
      by_cases hg : heaterEligible t hour s = true
      · unfold heaterEligible at hg
        simp [hb] at hg
        tauto
      · rw [if_neg (by simpa using hg)] at ha
        exact absurd ha (by simp [hb])
    · rintro ⟨hb, h1, h2, h3⟩
      refine ⟨?_, hb⟩
      unfold heaterStartStep
      rw [if_pos (by simp [heaterEligible, hb, h1, h2, h3])]
      simp [initiateHeaterTest, StopValveMotion, OpenValve]

/-- Witness for C7: from the boot state, a start step at one hour and one
second of uptime during hour 10 begins a session. -/
theorem heater_test_start_guard_witness :
    (heaterStartStep 4000000 10 (initState 0 false)).heaterTestActive = true :=
  ((heater_test_start_guard.2 4000000 10 (initState 0 false)).mpr
    ⟨rfl, by decide, by decide, by decide⟩).1

/-- C8: from a state with the valve closed and motion `IDLE`, a button edge
with no override active — and likewise the network toggle command — leaves
`isValveOpen = true` and motion `OPENING_MOTION`; a subsequent
`StopValveMotion` returns the motion to `IDLE` while the valve stays
reported open. -/
theorem manual_toggle_roundtrip (now : Nat) (s : CtrlState)
    (hclosed : s.isValveOpen = false)
    (hidle : s.valveMotion = ValveMotion.IDLE)
    (hover : s.manualOverrideActive = false)
    (hprev : s.buttonPreviouslyPressed = false) :
    ((buttonStep now true s).isValveOpen = true ∧
     (buttonStep now true s).valveMotion = ValveMotion.OPENING_MOTION ∧
     (StopValveMotion (buttonStep now true s)).valveMotion = ValveMotion.IDLE ∧
     (StopValveMotion (buttonStep now true s)).isValveOpen = true) ∧
    ((netToggleStep now s).isValveOpen = true ∧
     (netToggleStep now s).valveMotion = ValveMotion.OPENING_MOTION ∧
     (StopValveMotion (netToggleStep now s)).valveMotion = ValveMotion.IDLE ∧
     (StopValveMotion (netToggleStep now s)).isValveOpen = true) := by
  unfold buttonStep netToggleStep
  simp [hclosed, hover, hprev, OpenValve, StopValveMotion]

/-- Witness for C8 at the boot state. -/
theorem manual_toggle_roundtrip_witness :
    (buttonStep 5 true (initState 0 false)).isValveOpen = true :=
  (manual_toggle_roundtrip 5 (initState 0 false) rfl rfl rfl rfl).1.1

/-- C3: when a heater test session is evaluated, a solar reading more than
0.5 °C above the pool reading leaves the valve open, heating ON, and
commands the pump on; otherwise the valve is commanded closed, the motion
is stopped after the settle delay, the state reports valve closed and
heating OFF, and the pump is commanded off.  In both cases the session
ends. -/
theorem heater_test_evaluation (t : Nat) (pool solar : ℚ) (s : CtrlState) :
    (solar > pool + 1/2 →
      (finishHeaterTest t pool solar s).1.isValveOpen = true ∧
      (finishHeaterTest t pool solar s).1.solarStatus = "ON" ∧
      (finishHeaterTest t pool solar s).2 = [.delayMs 100, .pumpCmd "on"] ∧
      (finishHeaterTest t pool solar s).1.heaterTestActive = false) ∧
    (¬ solar > pool + 1/2 →
      (finishHeaterTest t pool solar s).1.isValveOpen = false ∧
      (finishHeaterTest t pool solar s).1.solarStatus = "OFF" ∧
      (finishHeaterTest t pool solar s).1.valveMotion = ValveMotion.IDLE ∧
      (finishHeaterTest t pool solar s).2 =
        [.delayMs 100, .delayMs 15000, .pumpCmd "off"] ∧
      (finishHeaterTest t pool solar s).1.heaterTestActive = false) := by
  unfold finishHeaterTest
  dsimp only
  constructor
  · intro h
    rw [if_pos (by simpa using h)]
    simp
  · intro h
    rw [if_neg (by simpa using h)]
    simp [StopValveMotion, CloseValve]

/-- Witness for C3, Scenario A of the spec: pool 24.0 °C, solar 24.2 °C —
the difference is below the 0.5 °C threshold, so the session ends with the
valve closed and heating OFF. -/
theorem heater_test_evaluation_witness :
    (finishHeaterTest 0 24 (121/5) (initState 0 false)).1.isValveOpen = false ∧
    (finishHeaterTest 0 24 (121/5) (initState 0 false)).1.solarStatus = "OFF" ∧
    (finishHeaterTest 0 24 (121/5) (initState 0 false)).1.heaterTestActive
      = false := by
  have h := (heater_test_evaluation 0 24 (121/5) (initState 0 false)).2
    (by norm_num)
  exact ⟨h.1, h.2.1, h.2.2.2.2⟩

theorem IsPumpOn_fail (wifi : Bool) (code : Int) (payload : String)
    (h : wifi = false ∨ code ≤ 0 ∨ findSub outputKey payload.toList = none) :
    IsPumpOn wifi code payload = false := by
  unfold IsPumpOn
  rcases h with rfl | h | h
  · rfl
  · cases wifi
    · rfl
    · simp [not_lt.mpr h]
  · cases wifi
    · rfl
    · have h' : findSub outputKey payload.data = none := h
      by_cases hc : code > 0
      · simp [hc, h']
      · simp [hc]

/-- Counterexample to C4 as stated: at boot the pump is observed ON; the
next poll's query fails (WiFi down), the supervisor reports OFF, and the
accumulated tally *changes* from 0 to 50000 — the failure is booked as an
ON→OFF transition. -/
theorem pump_poll_failure_changes_tally :
    IsPumpOn false 0 "" = false ∧
    (initState 0 true).previousPumpState = true ∧
    (initState 0 true).pumpRunTimeToday = 0 ∧
    (pumpPollStep 50000 (IsPumpOn false 0 "") (initState 0 true)).pumpStatus
      = "OFF" ∧
    (pumpPollStep 50000 (IsPumpOn false 0 "") (initState 0 true)).pumpRunTimeToday
      = 50000 := by
  refine ⟨rfl, rfl, rfl, ?_, ?_⟩ <;> decide

/-- C4 amended: when the pump-state query fails (WiFi down, HTTP error, or
a body without the `"output":` field), the supervisor reports OFF and
treats the failure as an ordinary OFF observation: the tally is unchanged
when the previous observation was OFF, and grows by the elapsed time since
the last transition when the previous observation was ON. -/
theorem pump_poll_failure_reports_off (now : Nat) (wifi : Bool) (code : Int)
    (payload : String) (s : CtrlState)
    (h : wifi = false ∨ code ≤ 0 ∨ findSub outputKey payload.toList = none) :
    IsPumpOn wifi code payload = false ∧
    (pumpPollStep now (IsPumpOn wifi code payload) s).pumpStatus = "OFF" ∧
    (pumpPollStep now (IsPumpOn wifi code payload) s).pumpRunTimeToday =
      (if s.previousPumpState then
         s.pumpRunTimeToday + wsub now s.lastPumpStateChange
       else s.pumpRunTimeToday) ∧
    (pumpPollStep now (IsPumpOn wifi code payload) s).previousPumpState
      = false := by
  have hf := IsPumpOn_fail wifi code payload h
  rw [hf]
  unfold pumpPollStep
  dsimp only
  refine ⟨rfl, ?_, ?_, ?_⟩ <;> split_ifs <;> simp_all

/-- Witness for the amended C4 with the WiFi-down failure at a boot state
that had observed the pump ON. -/
theorem pump_poll_failure_reports_off_witness :
    IsPumpOn false 5 "x" = false ∧
    (pumpPollStep 7 (IsPumpOn false 5 "x") (initState 0 true)).pumpStatus
      = "OFF" := by
  have h := pump_poll_failure_reports_off 7 false 5 "x" (initState 0 true)
    (Or.inl rfl)
  exact ⟨h.1, h.2.1⟩

/-- C2 (code defect): the heater-test eligibility guard of `loop()` never
consults the manual-override window.  One second into an active override
window (well under the 20000 ms duration) with the other eligibility
conditions met, the scheduled test fires, commands the valve open and sets
heating ON — while the override is still active. -/
theorem heater_test_fires_during_override :
    overrideActiveState.manualOverrideActive = true ∧
    wsub 4000000 overrideActiveState.manualOverrideStart < 20000 ∧
    heaterEligible 4000000 10 overrideActiveState = true ∧
    (heaterStartStep 4000000 10 overrideActiveState).heaterTestActive = true ∧
    (heaterStartStep 4000000 10 overrideActiveState).isValveOpen = true ∧
    (heaterStartStep 4000000 10 overrideActiveState).solarStatus = "ON" ∧
    (heaterStartStep 4000000 10 overrideActiveState).manualOverrideActive
      = true := by
  refine ⟨rfl, ?_, ?_, ?_, ?_, ?_, ?_⟩ <;> decide

set_option maxRecDepth 8192 in
/-- C5 (code defect): the heater-test waits are plain `delay` calls that
never invoke housekeeping: the trace of `initiateHeaterTest` contains a
16000 ms stretch with no `ArduinoOTA.handle()` call, and the
ineffective-branch trace of `finishHeaterTest` a 15100 ms stretch — far
above the claimed sub-10 ms bound.  By contrast, the probe-conversion wait
and the per-tick idle wait do interleave housekeeping every millisecond. -/
theorem heater_test_waits_skip_housekeeping :
    maxOtaGap initiateEvents = 16000 ∧
    maxOtaGap (finishHeaterTest 0 24 24 (initState 0 false)).2 = 15100 ∧
    maxOtaGap (serviceWait 100) = 1 ∧
    maxOtaGap (serviceWait 10) = 1 := by
  refine ⟨by decide, ?_, by decide, by decide⟩
  unfold finishHeaterTest
  dsimp only
  rw [if_neg (by norm_num)]
  decide

end PoolCtrl
